import Mathlib

/-!
Verification of the per-user session / generation-lock core (bot.py) and the
account store (db.py) of the image-edit bot.

Modelling conventions:
- Image byte buffers are `List Nat`.
- A user's session (`context.user_data`) is a `Session` (images list + optional
  prompt); `_get_state`'s setdefaults correspond to the empty session.
- The per-user asyncio lock state, as observed through `_get_lock(uid).locked()`,
  is a `Bool` passed into and returned from the handler step function.
- External collaborators (the PIL decode/resize/encode calls and the Gemini
  model call) are parameters of the functions that invoke them; an exception
  raised by a collaborator is `Option.none` / `Except.error`.
- Timestamps (`datetime.utcnow()`) are integers (seconds); `timedelta(days=d)`
  is `d * 86400` seconds. The stored TEXT column `validity_expire_at` is
  modelled by `Option ExpField`, where `ExpField` records what
  `datetime.fromisoformat` would do with the stored string: parse to some
  instant, fail, or be the empty string (falsy in Python, like NULL).
- Handler replies are modelled by small inductive outcome types; the exact
  message strings are irrelevant to the properties proved here.
-/

/-! Section: bot.py configuration. -/

def MAX_IMAGES : Nat := 3

def MAX_SIDE : Nat := 1536

/-! Section: bot.py image downscaling.

Model of `_downscale_image_bytes`: the PIL decode is the collaborator `decode`
(returning the decoded width and height, or `none` when `Image.open`/`convert`
raises); the resize-and-reencode step is the collaborator `encode` (given the
target width and height and the original bytes, returning the JPEG bytes or
`none` when it raises). The Python `int(w * scale)` float truncation is
modelled as floor division. The whole body is wrapped in
`try ... except: return image_bytes`, so every collaborator failure yields the
original input. -/

def downscaleImageBytes (decode : List Nat → Option (Nat × Nat))
    (encode : Nat → Nat → List Nat → Option (List Nat))
    (image_bytes : List Nat) : List Nat :=
  match decode image_bytes with
  | none => image_bytes
  | some (w, h) =>
    let m := max w h
    if m ≤ MAX_SIDE then image_bytes
    else
      let new_w := w * MAX_SIDE / m
      let new_h := h * MAX_SIDE / m
      match encode new_w new_h image_bytes with
      | none => image_bytes
      | some out => out

/-! Section: bot.py session state and handler outcomes. -/

/-- The per-user session kept in `context.user_data`: the accumulated image
byte buffers and the optional prompt text. -/
structure Session where
  images : List (List Nat)
  prompt : Option String
deriving DecidableEq

/-- The empty session produced by `_get_state`'s setdefaults. -/
def emptySession : Session := ⟨[], none⟩

/-- Outcome of the `on_image` handler, one constructor per distinct reply. -/
inductive ImageReply
  | limitReached
  | notAnImage
  | imageReceived (idx : Nat)
deriving DecidableEq

/-- Outcome of the `on_text` handler, one constructor per distinct path. -/
inductive TextOutcome
  | ignored
  | needImageFirst
  | busy
  | generated (png : List Nat) (caption : String)
  | failed (msg : String)
deriving DecidableEq

/-! Section: bot.py image handler.

Model of `on_image`: checks the image cap before downloading; `dl` is the result of
`_download_image_bytes` (`none` when the update carries no recognizable
image); `if not b` in Python is also true for the empty byte string. -/

def on_image (decode : List Nat → Option (Nat × Nat))
    (encode : Nat → Nat → List Nat → Option (List Nat))
    (sess : Session) (dl : Option (List Nat)) : Session × ImageReply :=
  if MAX_IMAGES ≤ sess.images.length then (sess, .limitReached)
  else
    match dl with
    | none => (sess, .notAnImage)
    | some b =>
      if b = [] then (sess, .notAnImage)
      else
        let b2 := downscaleImageBytes decode encode b
        let images := sess.images ++ [b2]
        (⟨images, sess.prompt⟩, .imageReceived images.length)

/-- Folds a list of downloaded image buffers through `on_image`. -/
def runAdds (decode : List Nat → Option (Nat × Nat))
    (encode : Nat → Nat → List Nat → Option (List Nat))
    (sess : Session) : List (List Nat) → Session
  | [] => sess
  | b :: rest => runAdds decode encode (on_image decode encode sess (some b)).1 rest

/-! Section: bot.py generation and the text handler. -/

/-- The body of `_generate_edited_image`: defensively rechecks that at least
one image was uploaded, then calls the external model (`callModel`, covering
both an API exception and the no-inline-image `RuntimeError`, as
`Except.error` with the exception message). -/
def generateEditedImage (callModel : String → List (List Nat) → Except String (List Nat))
    (prompt : String) (image_bytes_list : List (List Nat)) : Except String (List Nat) :=
  if image_bytes_list = [] then
    .error "No images uploaded. Please send at least 1 image."
  else callModel prompt image_bytes_list

/-- Python `str.strip()`: removes leading and trailing whitespace. (Lean's
own `String.trim` is avoided because its positional implementation does not
reduce inside the kernel.) -/
def pyStrip (s : String) : String :=
  ⟨((s.data.dropWhile Char.isWhitespace).reverse.dropWhile Char.isWhitespace).reverse⟩

/-- Python `text.startswith("/")`: the first character is a slash. -/
def startsWithSlash (s : String) : Bool :=
  match s.data with
  | [] => false
  | c :: _ => decide (c = '/')

/-- The `on_text` handler for one user: strips the text, silently ignores
empty or command text, rejects when no image has been uploaded, rejects with
the busy reply when this user's generation lock is already held, and otherwise
runs the `async with lock` block: store the prompt, attempt generation, on
success deliver the photo and reset the session, on failure report and keep
the session; the lock is released on both exits. Returns the new session, the
new lock state and the outcome. -/
def on_text (callModel : String → List (List Nat) → Except String (List Nat))
    (sess : Session) (lockHeld : Bool) (rawText : String) :
    Session × Bool × TextOutcome :=
  let text := pyStrip rawText
  if text = "" ∨ startsWithSlash text = true then (sess, lockHeld, .ignored)
  else if sess.images.length = 0 then (sess, lockHeld, .needImageFirst)
  else if lockHeld then (sess, lockHeld, .busy)
  else
    let sess1 : Session := ⟨sess.images, some text⟩
    match generateEditedImage callModel text sess.images with
    | .ok out_png => (⟨[], none⟩, false, .generated out_png text)
    | .error e => (sess1, false, .failed e)

/-! Section: db.py data model and operations. -/

/-- What `datetime.fromisoformat` does with the stored `validity_expire_at`
TEXT: a string parsing to the instant `t`, the empty string (falsy, caught by
`if not exp`), or a non-empty unparseable string (raises, caught by the
`except`). -/
inductive ExpField
  | isTs (t : Int)
  | emptyText
  | badText
deriving DecidableEq

/-- A row of the `users` table (the `id` key is the map index). -/
structure UserRow where
  username : Option String
  is_premium : Bool
  credits : Option Int
  validity_expire_at : Option ExpField
  selected_model : Option String
  tts_speed : Option String
  created_at : Option Int
  updated_at : Option Int
deriving DecidableEq

/-- The `users` table, keyed by user id. -/
abbrev Db := Nat → Option UserRow

/-- Python `user.get("credits") or 0`: NULL collapses to 0 (and so does 0
itself, harmlessly). -/
def creditsOr0 (c : Option Int) : Int := c.getD 0

/-- Model of `get_user`. -/
def get_user (db : Db) (user_id : Nat) : Option UserRow := db user_id

/-- The `fields` dict handed to `update_user_fields` by the credit/validity
operations: each `some` entry is a column assignment (the
`validity_expire_at` payload may itself be NULL). -/
structure FieldChanges where
  credits : Option Int
  is_premium : Option Bool
  validity_expire_at : Option (Option ExpField)
deriving DecidableEq

/-- Application of a `FieldChanges` dict to a row; `updated_at` is always
stamped. -/
def applyChanges (now : Int) (fc : FieldChanges) (row : UserRow) : UserRow :=
  ⟨row.username,
   fc.is_premium.getD row.is_premium,
   match fc.credits with | none => row.credits | some v => some v,
   fc.validity_expire_at.getD row.validity_expire_at,
   row.selected_model, row.tts_speed, row.created_at, some now⟩

/-- Model of `update_user_fields`: returns unchanged on an empty dict (before the
`updated_at` stamp is added); the SQL `UPDATE ... WHERE id = ?` is a no-op
when the row is absent. -/
def update_user_fields (now : Int) (db : Db) (user_id : Nat) (fc : FieldChanges) : Db :=
  if fc = FieldChanges.mk none none none then db
  else
    match db user_id with
    | none => db
    | some row => Function.update db user_id (some (applyChanges now fc row))

/-- Model of `ensure_user`: idempotent insert-if-absent; the INSERT sets
`is_premium = 0`, `credits = 0`, `tts_speed = 'natural'` and leaves
`validity_expire_at` and `selected_model` NULL. -/
def ensure_user (now : Int) (db : Db) (user_id : Nat) (username : Option String) : Db :=
  match db user_id with
  | some _ => db
  | none =>
    Function.update db user_id
      (some ⟨username, false, some 0, none, none, some "natural", some now, some now⟩)

/-- Model of `add_credits`: a direct SQL UPDATE adding `amount` to
`COALESCE(credits,0)`, forcing `is_premium = 1` and stamping `updated_at`;
a no-op when the row is absent. -/
def add_credits (now : Int) (db : Db) (user_id : Nat) (amount : Int) : Db :=
  match db user_id with
  | none => db
  | some row =>
    Function.update db user_id
      (some ⟨row.username, true, some (creditsOr0 row.credits + amount),
             row.validity_expire_at, row.selected_model, row.tts_speed,
             row.created_at, some now⟩)

/-- Model of `is_valid`: false when the row is absent, when the stored expiry is NULL
or the empty string, or when `fromisoformat` raises; otherwise a strict
comparison of the parsed expiry against the current time. -/
def is_valid (now : Int) (db : Db) (user_id : Nat) : Bool :=
  match db user_id with
  | none => false
  | some row =>
    match row.validity_expire_at with
    | none => false
    | some .emptyText => false
    | some .badText => false
    | some (.isTs t) => decide (now < t)

/-- Model of `remove_credits`: clamps the new balance at zero and recomputes
`is_premium` as `new_credits > 0 AND is_valid`; a no-op when the row is
absent. (The two `utcnow()` calls of the Python body are modelled by the one
instant `now`.) -/
def remove_credits (now : Int) (db : Db) (user_id : Nat) (amount : Int) : Db :=
  match get_user db user_id with
  | none => db
  | some row =>
    let new_credits := max 0 (creditsOr0 row.credits - amount)
    let prem := decide (0 < new_credits) && is_valid now db user_id
    update_user_fields now db user_id ⟨some new_credits, some prem, none⟩

/-- Model of `set_validity`: stores `now + days` as the expiry and recomputes
`is_premium` from the credits balance alone (the row must exist and have
positive credits); the freshly granted validity is not consulted. -/
def set_validity (now : Int) (db : Db) (user_id : Nat) (days : Int) : Db :=
  let expire_at := now + days * 86400
  let prem :=
    match get_user db user_id with
    | some row => decide (0 < creditsOr0 row.credits)
    | none => false
  update_user_fields now db user_id ⟨none, some prem, some (some (.isTs expire_at))⟩

/-- Model of `remove_validity`: clears the expiry and forces `is_premium = 0`. -/
def remove_validity (now : Int) (db : Db) (user_id : Nat) : Db :=
  update_user_fields now db user_id ⟨none, some false, some none⟩

/-- The stored premium flag of a user, when the row exists. -/
def premiumOf (db : Db) (user_id : Nat) : Option Bool :=
  (db user_id).map (fun r => r.is_premium)

/-- The effective credits balance of a user, when the row exists. -/
def creditsOf (db : Db) (user_id : Nat) : Option Int :=
  (db user_id).map (fun r => creditsOr0 r.credits)

/-- Modelled from the spec: the derived `isPremium` rule — true iff
`credits > 0` or `validityExpireAt` is set and in the future. Used to compare
the stored flag against the rule the spec states. -/
def derivedPremium (now : Int) (row : UserRow) : Bool :=
  decide (0 < creditsOr0 row.credits) ||
    match row.validity_expire_at with
    | some (.isTs t) => decide (now < t)
    | _ => false

/-! Section: concrete collaborators and database states used to instantiate
the theorems below. -/

/-- A model call that always fails. -/
def cmFail : String → List (List Nat) → Except String (List Nat) :=
  fun _ _ => .error "boom"

/-- A model call that always returns the fixed PNG `[9]`. -/
def cmOk : String → List (List Nat) → Except String (List Nat) :=
  fun _ _ => .ok [9]

/-- A PIL decode collaborator that always raises. -/
def decodeNone : List Nat → Option (Nat × Nat) := fun _ => none

/-- A PIL decode collaborator returning a 2000 by 1000 image. -/
def decodeBig : List Nat → Option (Nat × Nat) := fun _ => some (2000, 1000)

/-- A PIL decode collaborator returning a 100 by 50 image. -/
def decodeSmall : List Nat → Option (Nat × Nat) := fun _ => some (100, 50)

/-- A resize-and-reencode collaborator that always raises. -/
def encodeNone : Nat → Nat → List Nat → Option (List Nat) := fun _ _ _ => none

/-- A user row with zero credits and no validity record. -/
def cRowA : UserRow := ⟨none, false, some 0, none, none, none, none, none⟩

/-- A one-user database holding `cRowA` at user id 1. -/
def cDbA : Db := Function.update (fun _ => none) 1 (some cRowA)

/-- The row stored for user 1 by `set_validity 0 cDbA 1 1`. -/
def cRowA' : UserRow := ⟨none, false, some 0, some (.isTs 86400), none, none, none, some 0⟩

/-- A user row with five credits and no validity record. -/
def cRowB : UserRow := ⟨none, false, some 5, none, none, none, none, none⟩

/-- A one-user database holding `cRowB` at user id 2. -/
def cDbB : Db := Function.update (fun _ => none) 2 (some cRowB)

/-- The row stored for user 2 by `remove_credits 0 cDbB 2 10`. -/
def cRowB' : UserRow := ⟨none, false, some 0, none, none, none, none, some 0⟩

/-- A user row whose stored expiry string does not parse. -/
def cRowC : UserRow := ⟨none, false, none, some .badText, none, none, none, none⟩

/-- A one-user database holding `cRowC` at user id 3. -/
def cDbC : Db := Function.update (fun _ => none) 3 (some cRowC)

/-! Section: theorems about the text handler. -/

/-- C1: when the generation attempt triggered by a text message fails, the
session after the failure equals the snapshot taken at the start of the failed
attempt (the images are untouched and the prompt is the stored attempt text),
and the per-user generation lock is free again, so a subsequent attempt can
acquire it. -/
theorem on_text_failure_preserves_attempt_snapshot
    (cm : String → List (List Nat) → Except String (List Nat))
    (sess : Session) (rawText e : String)
    (hT : pyStrip rawText ≠ "")
    (hC : startsWithSlash (pyStrip rawText) = false)
    (hImg : sess.images ≠ [])
    (hGen : generateEditedImage cm (pyStrip rawText) sess.images = .error e) :
    on_text cm sess false rawText =
      (⟨sess.images, some (pyStrip rawText)⟩, false, .failed e) := by
  simp [on_text, hT, hC, List.length_eq_zero, hImg, hGen]

/-- Witness for C1 at a concrete failing generation. -/
theorem on_text_failure_preserves_attempt_snapshot_w :
    on_text cmFail ⟨[[1]], none⟩ false "add a hat" =
      (⟨[[1]], some (pyStrip "add a hat")⟩, false, .failed "boom") :=
  on_text_failure_preserves_attempt_snapshot cmFail ⟨[[1]], none⟩ "add a hat" "boom"
    (by decide) (by decide) (by decide) rfl

/-- C3: a non-empty non-command text message arriving while the user's
generation lock is held (the session having at least one image) is rejected
immediately with the busy reply, no generation is attempted, the session is
unchanged, and nothing is queued. -/
theorem on_text_busy_rejection
    (cm : String → List (List Nat) → Except String (List Nat))
    (sess : Session) (rawText : String)
    (hT : pyStrip rawText ≠ "")
    (hC : startsWithSlash (pyStrip rawText) = false)
    (hImg : sess.images ≠ []) :
    on_text cm sess true rawText = (sess, true, .busy) := by
  simp [on_text, hT, hC, List.length_eq_zero, hImg]

/-- Witness for C3 at a concrete held lock. -/
theorem on_text_busy_rejection_w :
    on_text cmFail ⟨[[2]], some "p"⟩ true "hello" =
      (⟨[[2]], some "p"⟩, true, .busy) :=
  on_text_busy_rejection cmFail ⟨[[2]], some "p"⟩ "hello"
    (by decide) (by decide) (by decide)

/-- C5: when the generation attempt triggered by a text message succeeds, the
session is reset: the resulting session has zero images and an absent prompt
(and the lock is free again, the photo having been delivered). -/
theorem on_text_success_resets_session
    (cm : String → List (List Nat) → Except String (List Nat))
    (sess : Session) (rawText : String) (png : List Nat)
    (hT : pyStrip rawText ≠ "")
    (hC : startsWithSlash (pyStrip rawText) = false)
    (hImg : sess.images ≠ [])
    (hGen : generateEditedImage cm (pyStrip rawText) sess.images = .ok png) :
    on_text cm sess false rawText =
      (⟨[], none⟩, false, .generated png (pyStrip rawText)) := by
  simp [on_text, hT, hC, List.length_eq_zero, hImg, hGen]

/-- Witness for C5 at a concrete succeeding generation. -/
theorem on_text_success_resets_session_w :
    on_text cmOk ⟨[[1], [2]], some "old"⟩ false "brighten" =
      (⟨[], none⟩, false, .generated [9] (pyStrip "brighten")) :=
  on_text_success_resets_session cmOk ⟨[[1], [2]], some "old"⟩ "brighten" [9]
    (by decide) (by decide) (by decide) rfl

/-- C6: a non-empty non-command text message arriving while the session holds
zero images is rejected with the need-image-first reply, no generation is
invoked (the outcome is the same for every model collaborator), and the
session and lock are unchanged, so no prompt is stored. -/
theorem on_text_needs_image_first
    (cm : String → List (List Nat) → Except String (List Nat))
    (sess : Session) (lockHeld : Bool) (rawText : String)
    (hT : pyStrip rawText ≠ "")
    (hC : startsWithSlash (pyStrip rawText) = false)
    (hImg : sess.images = []) :
    on_text cm sess lockHeld rawText = (sess, lockHeld, .needImageFirst) := by
  simp [on_text, hT, hC, hImg]

/-- Witness for C6 at a concrete empty session. -/
theorem on_text_needs_image_first_w :
    on_text cmOk ⟨[], none⟩ false "hello" = (⟨[], none⟩, false, .needImageFirst) :=
  on_text_needs_image_first cmOk ⟨[], none⟩ false "hello"
    (by decide) (by decide) rfl

/-! Section: theorems about the image handler. -/

/-- Helper: a successful image add below the cap appends exactly one buffer. -/
theorem on_image_append
    (decode : List Nat → Option (Nat × Nat))
    (encode : Nat → Nat → List Nat → Option (List Nat))
    (sess : Session) (b : List Nat)
    (hlt : sess.images.length < MAX_IMAGES) (hb : b ≠ []) :
    (on_image decode encode sess (some b)).1 =
      ⟨sess.images ++ [downscaleImageBytes decode encode b], sess.prompt⟩ := by
  simp [on_image, Nat.not_le.mpr hlt, hb]

/-- Helper: folding at most the remaining capacity of nonempty buffers grows
the image count by exactly the number of buffers. -/
theorem runAdds_length
    (decode : List Nat → Option (Nat × Nat))
    (encode : Nat → Nat → List Nat → Option (List Nat)) :
    ∀ (bs : List (List Nat)) (sess : Session),
      sess.images.length + bs.length ≤ MAX_IMAGES →
      (∀ b ∈ bs, b ≠ []) →
      (runAdds decode encode sess bs).images.length =
        sess.images.length + bs.length := by
  intro bs
  induction bs with
  | nil => intro sess _ _; simp [runAdds]
  | cons b rest ih =>
    intro sess hle hne
    have hb : b ≠ [] := hne b (List.mem_cons_self b rest)
    have hlt : sess.images.length < MAX_IMAGES := by
      simp only [List.length_cons] at hle; omega
    rw [runAdds, on_image_append decode encode sess b hlt hb]
    rw [ih ⟨sess.images ++ [downscaleImageBytes decode encode b], sess.prompt⟩
          (by simp only [List.length_cons] at hle; simp; omega)
          (fun x hx => hne x (List.mem_cons_of_mem b hx))]
    simp
    omega

/-- C4: for every sequence of at most MAX_IMAGES successful image-add events
starting from the empty session, the stored image count equals the number of
events; and once MAX_IMAGES images are stored, a further image-add is rejected
with the limit-exceeded reply and leaves the session (hence the count)
unchanged. -/
theorem image_add_counts_and_limit
    (decode : List Nat → Option (Nat × Nat))
    (encode : Nat → Nat → List Nat → Option (List Nat)) :
    (∀ bs : List (List Nat), bs.length ≤ MAX_IMAGES → (∀ b ∈ bs, b ≠ []) →
       (runAdds decode encode emptySession bs).images.length = bs.length)
    ∧ (∀ (sess : Session) (dl : Option (List Nat)),
       MAX_IMAGES ≤ sess.images.length →
       on_image decode encode sess dl = (sess, .limitReached)) := by
  constructor
  · intro bs hlen hne
    have h := runAdds_length decode encode bs emptySession
      (by simpa [emptySession] using hlen) hne
    simpa [emptySession] using h
  · intro sess dl hge
    simp [on_image, hge]

/-- Witness for C4: three adds yield count three, and a fourth is rejected. -/
theorem image_add_counts_and_limit_w :
    (runAdds decodeNone encodeNone emptySession [[1], [2], [3]]).images.length = 3
    ∧ on_image decodeNone encodeNone ⟨[[1], [2], [3]], none⟩ (some [4]) =
        (⟨[[1], [2], [3]], none⟩, .limitReached) :=
  ⟨(image_add_counts_and_limit decodeNone encodeNone).1 [[1], [2], [3]]
      (by decide) (by decide),
   (image_add_counts_and_limit decodeNone encodeNone).2 ⟨[[1], [2], [3]], none⟩
      (some [4]) (by decide)⟩

/-! Section: theorems about the downscale transform. -/

/-- C9: the downscale transform is total (it is a function returning bytes on
every input, every collaborator failure being caught): when the decode
collaborator raises, the original bytes are returned; when the decoded image's
longest side is at most MAX_SIDE, the input bytes are returned unchanged; and
when the resize-and-reencode collaborator fails, the original bytes are
returned unchanged rather than failing. -/
theorem downscale_total_best_effort
    (decode : List Nat → Option (Nat × Nat))
    (encode : Nat → Nat → List Nat → Option (List Nat))
    (b : List Nat) :
    (decode b = none → downscaleImageBytes decode encode b = b)
    ∧ (∀ w h, decode b = some (w, h) → max w h ≤ MAX_SIDE →
        downscaleImageBytes decode encode b = b)
    ∧ (∀ w h, decode b = some (w, h) → MAX_SIDE < max w h →
        encode (w * MAX_SIDE / max w h) (h * MAX_SIDE / max w h) b = none →
        downscaleImageBytes decode encode b = b) := by
  refine ⟨fun h1 => ?_, fun w h h1 h2 => ?_, fun w h h1 h2 h3 => ?_⟩
  · simp [downscaleImageBytes, h1]
  · simp [downscaleImageBytes, h1, h2]
  · simp [downscaleImageBytes, h1, Nat.not_le.mpr h2, h3]

/-- Witness for C9: an oversized decode with a failing reencode, and a failing
decode, both return the input unchanged. -/
theorem downscale_total_best_effort_w :
    downscaleImageBytes decodeBig encodeNone [7] = [7]
    ∧ downscaleImageBytes decodeNone encodeNone [7] = [7] :=
  ⟨(downscale_total_best_effort decodeBig encodeNone [7]).2.2 2000 1000 rfl
      (by decide) rfl,
   (downscale_total_best_effort decodeNone encodeNone [7]).1 rfl⟩

/-! Section: theorems about the account store. -/

/-- C2 counterexample: for a user with zero credits and no validity record,
granting one day of validity stores a row whose premium flag is false, while
the derived rule (credits positive, or validity set and in the future) says
true — so the stored flag does not equal the derived rule after this
mutation. -/
theorem premium_flag_not_derived_rule_cex :
    set_validity 0 cDbA 1 1 1 = some cRowA'
    ∧ cRowA'.is_premium ≠ derivedPremium 0 cRowA' := by
  constructor
  · decide
  · decide

/-- C2 amended: after each account-store mutation of an existing row the
stored premium flag equals what the code actually computes — true after
`add_credits`; `new_credits positive AND currently valid` after
`remove_credits`; `credits positive` (the freshly granted validity being
ignored) after `set_validity`; and false after `remove_validity` — rather
than the derived rule `credits positive OR validity in the future`. -/
theorem premium_flag_after_each_mutation
    (now : Int) (db : Db) (user_id : Nat) (amount days : Int) (row : UserRow)
    (h : db user_id = some row) :
    premiumOf (add_credits now db user_id amount) user_id = some true
    ∧ premiumOf (remove_credits now db user_id amount) user_id =
        some (decide (0 < max 0 (creditsOr0 row.credits - amount))
                && is_valid now db user_id)
    ∧ premiumOf (set_validity now db user_id days) user_id =
        some (decide (0 < creditsOr0 row.credits))
    ∧ premiumOf (remove_validity now db user_id) user_id = some false := by
  refine ⟨?_, ?_, ?_, ?_⟩
  · simp [add_credits, h, premiumOf]
  · simp [remove_credits, get_user, h, update_user_fields, applyChanges, premiumOf]
  · simp [set_validity, get_user, h, update_user_fields, applyChanges, premiumOf]
  · simp [remove_validity, h, update_user_fields, applyChanges, premiumOf]

/-- Witness for the amended C2 at a concrete row with five credits. -/
theorem premium_flag_after_each_mutation_w :
    premiumOf (add_credits 0 cDbB 2 10) 2 = some true
    ∧ premiumOf (remove_credits 0 cDbB 2 10) 2 =
        some (decide (0 < max 0 (creditsOr0 cRowB.credits - 10))
                && is_valid 0 cDbB 2)
    ∧ premiumOf (set_validity 0 cDbB 2 1) 2 =
        some (decide (0 < creditsOr0 cRowB.credits))
    ∧ premiumOf (remove_validity 0 cDbB 2) 2 = some false :=
  premium_flag_after_each_mutation 0 cDbB 2 10 1 cRowB (by decide)

/-- C7: the credits balance never goes negative — any row present after
`remove_credits` has a non-negative balance (the deduction clamps at zero for
every amount); `add_credits` is strictly additive on the balance and forces
the premium flag true; the validity mutations leave the balance untouched;
and the row inserted by `ensure_user` starts at zero credits. -/
theorem credits_clamped_and_grant_additive
    (now : Int) (db : Db) (user_id : Nat) (username : Option String)
    (amount days : Int) :
    (∀ row', (remove_credits now db user_id amount) user_id = some row' →
        0 ≤ creditsOr0 row'.credits)
    ∧ (∀ row, db user_id = some row →
        creditsOf (add_credits now db user_id amount) user_id =
          some (creditsOr0 row.credits + amount)
        ∧ premiumOf (add_credits now db user_id amount) user_id = some true)
    ∧ creditsOf (set_validity now db user_id days) user_id = creditsOf db user_id
    ∧ creditsOf (remove_validity now db user_id) user_id = creditsOf db user_id
    ∧ (db user_id = none →
        creditsOf (ensure_user now db user_id username) user_id = some 0) := by
  refine ⟨?_, ?_, ?_, ?_, ?_⟩
  · intro row' hrow
    cases h : db user_id with
    | none =>
      rw [remove_credits, get_user, h] at hrow
      simp [h] at hrow
    | some row =>
      rw [remove_credits, get_user, h] at hrow
      simp [update_user_fields, applyChanges, h] at hrow
      rw [← hrow]
      simp [creditsOr0]
  · intro row h
    constructor
    · simp [add_credits, h, creditsOf, creditsOr0]
    · simp [add_credits, h, premiumOf]
  · cases h : db user_id with
    | none => simp [set_validity, get_user, update_user_fields, h, creditsOf]
    | some row =>
      simp [set_validity, get_user, update_user_fields, applyChanges, h, creditsOf]
  · cases h : db user_id with
    | none => simp [remove_validity, update_user_fields, h, creditsOf]
    | some row =>
      simp [remove_validity, update_user_fields, applyChanges, h, creditsOf]
  · intro h
    simp [ensure_user, h, creditsOf, creditsOr0]

/-- Witness for C7: the clamp and the additive grant at a concrete row with
five credits, an oversized deduction and a fresh insert. -/
theorem credits_clamped_and_grant_additive_w :
    (0 : Int) ≤ creditsOr0 cRowB'.credits
    ∧ creditsOf (add_credits 0 cDbB 2 7) 2 = some (creditsOr0 cRowB.credits + 7)
    ∧ premiumOf (add_credits 0 cDbB 2 7) 2 = some true
    ∧ creditsOf (ensure_user 0 cDbB 9 none) 9 = some 0 :=
  ⟨(credits_clamped_and_grant_additive 0 cDbB 2 none 10 1).1 cRowB' (by decide),
   ((credits_clamped_and_grant_additive 0 cDbB 2 none 7 1).2.1 cRowB (by decide)).1,
   ((credits_clamped_and_grant_additive 0 cDbB 2 none 7 1).2.1 cRowB (by decide)).2,
   (credits_clamped_and_grant_additive 0 cDbB 9 none 7 1).2.2.2.2 (by decide)⟩

/-- C8: `is_valid` returns false for a user with no validity record (row
absent, or expiry NULL); returns true at any instant strictly within one day
of `set_validity(u, 1)` on an existing row; and returns false after
`remove_validity` clears the expiry. -/
theorem is_valid_lifecycle (now t : Int) (db : Db) (user_id : Nat) :
    (db user_id = none → is_valid t db user_id = false)
    ∧ (∀ row, db user_id = some row → row.validity_expire_at = none →
        is_valid t db user_id = false)
    ∧ (∀ row, db user_id = some row → t < now + 86400 →
        is_valid t (set_validity now db user_id 1) user_id = true)
    ∧ is_valid t (remove_validity now db user_id) user_id = false := by
  refine ⟨fun h => ?_, fun row h hexp => ?_, fun row h ht => ?_, ?_⟩
  · simp [is_valid, h]
  · simp [is_valid, h, hexp]
  · simp [set_validity, get_user, update_user_fields, applyChanges, h, is_valid]
    omega
  · cases h : db user_id with
    | none => simp [remove_validity, update_user_fields, h, is_valid]
    | some row =>
      simp [remove_validity, update_user_fields, applyChanges, h, is_valid]

/-- Witness for C8 at a concrete row: no record, then a one-day grant checked
immediately, then a revocation. -/
theorem is_valid_lifecycle_w :
    is_valid 0 cDbB 2 = false
    ∧ is_valid 0 (set_validity 0 cDbB 2 1) 2 = true
    ∧ is_valid 0 (remove_validity 0 cDbB 2) 2 = false :=
  ⟨((is_valid_lifecycle 0 0 cDbB 2).2.1 cRowB (by decide) (by decide)),
   ((is_valid_lifecycle 0 0 cDbB 2).2.2.1 cRowB (by decide) (by decide)),
   (is_valid_lifecycle 0 0 cDbB 2).2.2.2⟩

/-- C10: the validity check is total (a function defined on every database
state, every parse failure being caught) and defensively returns false when
the row is absent, when the stored expiry is NULL, when it is the empty
string, and when the stored string is not a parseable timestamp. -/
theorem is_valid_defensive (now : Int) (db : Db) (user_id : Nat) :
    (db user_id = none → is_valid now db user_id = false)
    ∧ (∀ row, db user_id = some row →
        (row.validity_expire_at = none → is_valid now db user_id = false)
        ∧ (row.validity_expire_at = some .emptyText →
            is_valid now db user_id = false)
        ∧ (row.validity_expire_at = some .badText →
            is_valid now db user_id = false)) := by
  refine ⟨fun h => ?_, fun row h => ⟨fun hexp => ?_, fun hexp => ?_, fun hexp => ?_⟩⟩
  · simp [is_valid, h]
  · simp [is_valid, h, hexp]
  · simp [is_valid, h, hexp]
  · simp [is_valid, h, hexp]

/-- Witness for C10: an absent row and a stored unparseable expiry string
both yield false. -/
theorem is_valid_defensive_w :
    is_valid 0 cDbC 4 = false ∧ is_valid 0 cDbC 3 = false :=
  ⟨(is_valid_defensive 0 cDbC 4).1 (by decide),
   ((is_valid_defensive 0 cDbC 3).2 cRowC (by decide)).2.2 (by decide)⟩
